import Mathlib

/-!
Shallow embedding of the two source modules of the
autonomous-ai-driven-revenue-ecosystem-optimizer repository:

* `src/data_collector.py` — class `DataCollector` with `fetch_data`
  (per-source acquisition with endpoint fallback and raw persistence)
  and `collect_all_sources` (the all-sources sweep).
* `src/data_processor.py` — class `DataProcessor` with `process_source`
  (enumerate raw artifacts of a source, parse, filter by revenue).

Modelling conventions:
* JSON numbers are modelled as `Int` (all revenue values exercised by the
  specification are integers; JSON floats are out of scope).
* A stored file's content is either a well-formed JSON value (`.json v`,
  what `json.dump` wrote and `json.load` reads back) or `.malformed`
  (content on which `json.load` raises `json.JSONDecodeError`).
* The data lake is an association list: source name ↦ directory, where a
  directory is an association list: file name ↦ file content.  A source
  directory may exist and be empty, matching `Path.exists` vs. an empty
  glob in the Python code.
* Wall-clock reads (`datetime.now()`) are modelled by a function
  `clock : Nat → DateTime` consumed at successive indices; `fetch_data`
  performs exactly three reads on its success path (lines 50, 70, 76 of
  `data_collector.py`).
* `timedelta.total_seconds()` is modelled in microseconds as an `Int`
  (division by 10^6 preserves the sign, which is all the claims use);
  the subtraction uses a linearisation of the datetime fields that is
  order-preserving on valid datetimes.
* Python exceptions are modelled by the inductive `PyError` and fallible
  code returns `Except PyError _`.
-/

/-- A JSON value, as produced by `response.json()` / `json.load`.
Objects keep their fields as an ordered association list (Python dicts
have unique keys and preserve insertion order). -/
inductive JsonVal where
  | num (n : Int)
  | str (s : String)
  | bool (b : Bool)
  | null
  | arr (xs : List JsonVal)
  | obj (fields : List (String × JsonVal))

/-- The Python exceptions that the two modules can raise. -/
inductive PyError where
  /-- `NameError` — an unbound name is evaluated
  (`datetime` in `data_processor.py`). -/
  | nameError
  /-- `ValueError` — unconfigured source (`data_collector.py` line 47). -/
  | valueError
  /-- `requests.exceptions.RequestException` — transport failure or
  non-2xx status (`requests.get` / `raise_for_status`). -/
  | requestException
  /-- `json.JSONDecodeError` — response or file body is not valid JSON. -/
  | jsonDecodeError
  /-- `RuntimeError` — "Could not fetch data from any URL in the list."
  (`data_collector.py` line 68); the spec's `FetchError`
  ("no reachable endpoint"). -/
  | runtimeError
  /-- `FileNotFoundError` — "No data found for source ..."
  (`data_processor.py` line 45); the spec's `NotFoundError`. -/
  | fileNotFoundError
  /-- `AttributeError` — calling `.copy()` / `.get` on a non-dict. -/
  | attributeError
  /-- `TypeError` — ordering comparison between incompatible types. -/
  | typeError
deriving DecidableEq

/-- Logging levels used by both modules' `logger` calls. -/
inductive LogLevel where
  | info
  | warning
  | error
deriving DecidableEq

/-- One leveled log message. Messages keep the code's f-string text, with
the interpolated exception text / absolute path prefix abstracted away. -/
abbrev LogMsg := LogLevel × String

/-- Content of one stored artifact file: either the JSON value that
`json.load` yields, or malformed text on which it raises. -/
inductive FileContent where
  | json (v : JsonVal)
  | malformed

/-- One per-source directory: file name ↦ content, in creation order
(the order `Path.glob` enumerates in the model). -/
abbrev DirEntries := List (String × FileContent)

/-- The data-lake root: source name ↦ directory. An entry with an empty
list models a directory that exists but holds no artifacts. -/
abbrev FileSys := List (String × DirEntries)

/-- First-match association lookup of a source's directory;
`none` models `Path.exists()` returning `False`. -/
def lookupDir : FileSys → String → Option DirEntries
  | [], _ => none
  | (t, d) :: rest, s => if t = s then some d else lookupDir rest s

/-- The files of a source's directory (empty when the directory is absent). -/
def dirFiles (fs : FileSys) (s : String) : DirEntries :=
  (lookupDir fs s).getD []

/-- First-match lookup of a file's content inside a directory. -/
def lookupFile : DirEntries → String → Option FileContent
  | [], _ => none
  | (g, c) :: rest, n => if g = n then some c else lookupFile rest n

/-- Read one file of one source's directory. -/
def readFile (fs : FileSys) (s n : String) : Option FileContent :=
  match lookupDir fs s with
  | none => none
  | some d => lookupFile d n

/-- `source_path.mkdir(parents=True, exist_ok=True)`
(`data_collector.py` line 75): create the directory if absent,
leave it untouched otherwise. -/
def mkdirIfAbsent (fs : FileSys) (s : String) : FileSys :=
  match lookupDir fs s with
  | some _ => fs
  | none => (s, []) :: fs

/-- `open(file_path, 'w')` followed by `json.dump`: replace the file if the
name already exists, append it otherwise. -/
def upsertFile : DirEntries → String → FileContent → DirEntries
  | [], n, c => [(n, c)]
  | (g, d) :: rest, n, c =>
      if g = n then (n, c) :: rest else (g, d) :: upsertFile rest n c

/-- Write one file into one source's directory (the directory is always
created first via `mkdirIfAbsent`, mirroring lines 74-80; a write to an
absent directory never occurs and is modelled as a no-op). -/
def writeFile : FileSys → String → String → FileContent → FileSys
  | [], _, _, _ => []
  | (t, d) :: rest, s, n, c =>
      if t = s then (t, upsertFile d n c) :: rest
      else (t, d) :: writeFile rest s n c

/-- Total number of stored artifact files across all sources. -/
def countAllFiles (fs : FileSys) : Nat :=
  (fs.map (fun p => p.2.length)).sum

/-- A `datetime.datetime` value. Python's constructor enforces the field
ranges captured by `DateTime.valid` below. -/
structure DateTime where
  year : Nat
  month : Nat
  day : Nat
  hour : Nat
  minute : Nat
  second : Nat
  microsecond : Nat
deriving DecidableEq

/-- The field ranges `datetime.datetime` enforces on construction. -/
def DateTime.valid (d : DateTime) : Prop :=
  1 ≤ d.year ∧ d.year ≤ 9999 ∧
  1 ≤ d.month ∧ d.month ≤ 12 ∧
  1 ≤ d.day ∧ d.day ≤ 31 ∧
  d.hour ≤ 23 ∧ d.minute ≤ 59 ∧ d.second ≤ 59 ∧
  d.microsecond ≤ 999999

instance (d : DateTime) : Decidable d.valid := by
  unfold DateTime.valid; infer_instance

/-- Order-preserving linearisation of a datetime into microseconds
(months are given a uniform 31-day span, which preserves the
lexicographic field order on valid datetimes; only differences of this
value are used, for `timedelta.total_seconds()` whose sign is all the
claims depend on). -/
def DateTime.ord (d : DateTime) : Nat :=
  d.microsecond +
    1000000 * (d.second + 60 * (d.minute + 60 * (d.hour +
      24 * (d.day + 31 * (d.month + 12 * d.year)))))

/-- The ten decimal digit characters. -/
def decDigits : List Char := ['0', '1', '2', '3', '4', '5', '6', '7', '8', '9']

/-- The character of the last decimal digit of `n`. -/
def digitChar (n : Nat) : Char := decDigits.getD (n % 10) '0'

/-- Two-digit zero-padded rendering (`%02d` for the in-range field values
`datetime` guarantees). -/
def pad2 (n : Nat) : List Char := [digitChar (n / 10), digitChar n]

/-- Four-digit zero-padded rendering of the year. -/
def pad4 (n : Nat) : List Char :=
  [digitChar (n / 1000), digitChar (n / 100), digitChar (n / 10), digitChar n]

/-- Six-digit zero-padded rendering of the microsecond field. -/
def pad6 (n : Nat) : List Char :=
  [digitChar (n / 100000), digitChar (n / 10000), digitChar (n / 1000),
   digitChar (n / 100), digitChar (n / 10), digitChar n]

/-- `datetime.isoformat()`: `YYYY-MM-DDTHH:MM:SS` with a `.ffffff`
fraction exactly when the microsecond field is nonzero. -/
def DateTime.isoChars (d : DateTime) : List Char :=
  pad4 d.year ++ '-' :: pad2 d.month ++ '-' :: pad2 d.day ++
    'T' :: pad2 d.hour ++ ':' :: pad2 d.minute ++ ':' :: pad2 d.second ++
    (if d.microsecond = 0 then [] else '.' :: pad6 d.microsecond)

/-- `datetime.isoformat()` as a string. -/
def DateTime.isoformat (d : DateTime) : String := String.mk d.isoChars

/-- Decimal digit test on a character. -/
def isDigitCh (c : Char) : Bool := decide ('0' ≤ c) && decide (c ≤ '9')

/-- Numeric value of a decimal digit character. -/
def digitVal (c : Char) : Nat := c.toNat - 48

/-- Value of a two-digit group. -/
def val2 (a b : Char) : Nat := 10 * digitVal a + digitVal b

/-- The character at position `i`, with a blank as off-the-end default. -/
def chAt (cs : List Char) (i : Nat) : Char := cs.getD i ' '

/-- ISO-8601 checker for the timestamps the Collector embeds in artifact
names and acquisition records: `YYYY-MM-DDTHH:MM:SS` with an optional
six-digit fraction, with in-range month, day, hour, minute and second. -/
def isISO8601 (s : String) : Bool :=
  let cs := s.data
  (decide (cs.length = 19) ||
    (decide (cs.length = 26) && (chAt cs 19 == '.') &&
     isDigitCh (chAt cs 20) && isDigitCh (chAt cs 21) &&
     isDigitCh (chAt cs 22) && isDigitCh (chAt cs 23) &&
     isDigitCh (chAt cs 24) && isDigitCh (chAt cs 25))) &&
  (isDigitCh (chAt cs 0) && isDigitCh (chAt cs 1) &&
   isDigitCh (chAt cs 2) && isDigitCh (chAt cs 3) &&
   (chAt cs 4 == '-') && isDigitCh (chAt cs 5) && isDigitCh (chAt cs 6) &&
   (chAt cs 7 == '-') && isDigitCh (chAt cs 8) && isDigitCh (chAt cs 9) &&
   (chAt cs 10 == 'T') && isDigitCh (chAt cs 11) && isDigitCh (chAt cs 12) &&
   (chAt cs 13 == ':') && isDigitCh (chAt cs 14) && isDigitCh (chAt cs 15) &&
   (chAt cs 16 == ':') && isDigitCh (chAt cs 17) && isDigitCh (chAt cs 18)) &&
  (decide (1 ≤ val2 (chAt cs 5) (chAt cs 6)) &&
   decide (val2 (chAt cs 5) (chAt cs 6) ≤ 12) &&
   decide (1 ≤ val2 (chAt cs 8) (chAt cs 9)) &&
   decide (val2 (chAt cs 8) (chAt cs 9) ≤ 31) &&
   decide (val2 (chAt cs 11) (chAt cs 12) ≤ 23) &&
   decide (val2 (chAt cs 14) (chAt cs 15) ≤ 59) &&
   decide (val2 (chAt cs 17) (chAt cs 18) ≤ 59))

theorem digitChar_isDigit (n : Nat) : isDigitCh (digitChar n) = true := by
  have h : n % 10 < 10 := Nat.mod_lt _ (by norm_num)
  have hall : ∀ m, m < 10 → isDigitCh (decDigits.getD m '0') = true := by decide
  exact hall _ h

theorem digitVal_digitChar (n : Nat) : digitVal (digitChar n) = n % 10 := by
  have h : n % 10 < 10 := Nat.mod_lt _ (by norm_num)
  have hall : ∀ m, m < 10 → digitVal (decDigits.getD m '0') = m := by decide
  exact hall _ h

theorem val2_pad2 (n : Nat) (h : n < 100) :
    val2 (digitChar (n / 10)) (digitChar n) = n := by
  rw [val2, digitVal_digitChar, digitVal_digitChar]
  have hd : n / 10 < 10 := by omega
  rw [Nat.mod_eq_of_lt hd]
  omega

/-- A valid datetime's `isoformat` passes the ISO-8601 checker. -/
theorem isoformat_isISO8601 (d : DateTime) (h : d.valid) :
    isISO8601 d.isoformat = true := by
  obtain ⟨h1, h2, h3, h4, h5, h6, h7, h8, h9, h10⟩ := h
  rw [DateTime.isoformat, DateTime.isoChars, pad4, pad2, pad2, pad2, pad2, pad2]
  by_cases hμ : d.microsecond = 0
  · simp only [hμ, reduceIte, List.cons_append, List.nil_append, List.append_nil]
    simp [isISO8601, chAt, List.getD_cons_zero, List.getD_cons_succ,
      digitChar_isDigit, val2_pad2 d.month (by omega),
      val2_pad2 d.day (by omega), val2_pad2 d.hour (by omega),
      val2_pad2 d.minute (by omega), val2_pad2 d.second (by omega)]
    omega
  · simp only [hμ, reduceIte, pad6, List.cons_append, List.nil_append,
      List.append_nil]
    simp [isISO8601, chAt, List.getD_cons_zero, List.getD_cons_succ,
      digitChar_isDigit, val2_pad2 d.month (by omega),
      val2_pad2 d.day (by omega), val2_pad2 d.hour (by omega),
      val2_pad2 d.minute (by omega), val2_pad2 d.second (by omega)]
    omega

/-! ## Collector (`src/data_collector.py`) -/

/-- One source's configuration entry: either `{'url': ...}` or
`{'urls': [...]}` (`DataCollector.__init__`, lines 25-29; the spec's
`SourceConfig` invariant says exactly one of the two forms is present). -/
inductive SourceConfig where
  | single (url : String)
  | multi (urls : List String)

/-- The `self.data_sources` mapping: source name ↦ configuration, in
insertion order (Python dicts preserve it). -/
abbrev Config := List (String × SourceConfig)

/-- `self.data_sources.get(source)` — first-match lookup. -/
def lookupCfg : Config → String → Option SourceConfig
  | [], _ => none
  | (t, c) :: rest, s => if t = s then some c else lookupCfg rest s

/-- The hard-coded configuration of `DataCollector.__init__`. -/
def defaultDataSources : Config :=
  [("crm", SourceConfig.single "https://api.crm.example.com/revenue"),
   ("finance", SourceConfig.single "https://api.finance.example.com/financials"),
   ("market", SourceConfig.multi
      ["https://api.market1.example.com", "https://api.market2.example.com"])]

/-- Outcome of one `requests.get(url)` + `raise_for_status()` + `.json()`
round trip, supplied by the environment. -/
inductive UrlOutcome where
  /-- connection failure or non-2xx status:
  `requests.exceptions.RequestException`. -/
  | transportError
  /-- 2xx response whose body is not valid JSON: `json.JSONDecodeError`. -/
  | decodeError
  /-- 2xx response with JSON body `v`. -/
  | ok (v : JsonVal)

/-- Whether the round trip succeeded. -/
def UrlOutcome.isOk : UrlOutcome → Bool
  | .ok _ => true
  | _ => false

/-- The payload of a successful round trip. -/
def UrlOutcome.payload : UrlOutcome → Option JsonVal
  | .ok v => some v
  | _ => none

/-- The success dictionary `fetch_data` returns (lines 84-89). `duration`
is `(end_time - start_time).total_seconds()` modelled in microseconds. -/
structure AcquisitionRecord where
  status : String
  source : String
  timestamp : String
  duration : Int
deriving DecidableEq

/-- `logger.info` at line 51. -/
def startMsg (s : String) : LogMsg :=
  (LogLevel.info, "Starting data fetch from " ++ s ++ ".")

/-- `logger.warning` at line 66. -/
def warnMsg (u : String) : LogMsg :=
  (LogLevel.warning, "Failed to fetch from " ++ u ++ ", trying next.")

/-- `logger.info` at line 82 (the absolute path prefix is abstracted to
the artifact file name). -/
def storedMsg (s fname : String) : LogMsg :=
  (LogLevel.info,
    "Data fetched from " ++ s ++ " successfully. Stored at " ++ fname ++ ".")

/-- `logger.error` at line 92. -/
def fetchErrMsg (s : String) : LogMsg :=
  (LogLevel.error, "Failed to fetch data from " ++ s)

/-- `logger.error` at line 95. -/
def parseErrMsg (s : String) : LogMsg :=
  (LogLevel.error, "Failed to parse JSON response from " ++ s)

/-- Result of the fallback loop over `config['urls']` (lines 59-66):
which URLs received a GET, the warnings logged, and the first successful
payload if any. -/
structure TryOut where
  contacted : List String
  warns : List LogMsg
  res : Option JsonVal

/-- The fallback loop (lines 59-66): try each URL in configured order;
a failure logs a warning and advances; the first success breaks out of
the loop without contacting the remaining URLs. -/
def tryUrls (world : String → UrlOutcome) : List String → TryOut
  | [] => ⟨[], [], none⟩
  | u :: rest =>
      match world u with
      | .ok v => ⟨[u], [], some v⟩
      | _ =>
          let t := tryUrls world rest
          ⟨u :: t.contacted, warnMsg u :: t.warns, t.res⟩

/-- The artifact file name `f"{source}_{timestamp}.json"` (line 77). -/
def artifactName (s timestamp : String) : String :=
  s ++ "_" ++ timestamp ++ ".json"

/-- Everything one `fetch_data` call produces: the data lake afterwards,
the next unread clock index, the log, the URLs that received a GET, and
the returned record or the raised exception. -/
structure FetchResult where
  fs : FileSys
  nextIdx : Nat
  log : List LogMsg
  contacted : List String
  outcome : Except PyError AcquisitionRecord

/-- The success tail of `fetch_data` (lines 70-89): read `end_time`
(clock index `i+1`), compute the duration, create the source directory
if absent, read the timestamp (clock index `i+2`), write the artifact
file and return the success record. -/
def fetchSuccess (clock : Nat → DateTime) (fs : FileSys) (i : Nat)
    (source : String) (contacted : List String) (warns : List LogMsg)
    (v : JsonVal) : FetchResult :=
  let duration : Int := ((clock (i + 1)).ord : Int) - ((clock i).ord : Int)
  let fs1 := mkdirIfAbsent fs source
  let timestamp := (clock (i + 2)).isoformat
  let fname := artifactName source timestamp
  let fs2 := writeFile fs1 source fname (FileContent.json v)
  ⟨fs2, i + 3,
    startMsg source :: warns ++ [storedMsg source fname],
    contacted,
    Except.ok ⟨"success", source, timestamp, duration⟩⟩

/-- `DataCollector.fetch_data` (lines 32-96). `world` gives each URL's
round-trip outcome, `clock` the successive `datetime.now()` readings
starting at index `i`. -/
def fetch_data (cfg : Config) (world : String → UrlOutcome)
    (clock : Nat → DateTime) (fs : FileSys) (i : Nat) (source : String) :
    FetchResult :=
  match lookupCfg cfg source with
  | none => ⟨fs, i, [], [], Except.error PyError.valueError⟩
  | some config =>
      match config with
      | SourceConfig.single url =>
          match world url with
          | UrlOutcome.transportError =>
              ⟨fs, i + 1, [startMsg source, fetchErrMsg source], [url],
                Except.error PyError.requestException⟩
          | UrlOutcome.decodeError =>
              ⟨fs, i + 1, [startMsg source, parseErrMsg source], [url],
                Except.error PyError.jsonDecodeError⟩
          | UrlOutcome.ok v => fetchSuccess clock fs i source [url] [] v
      | SourceConfig.multi urls =>
          let t := tryUrls world urls
          match t.res with
          | none =>
              ⟨fs, i + 1, startMsg source :: t.warns, t.contacted,
                Except.error PyError.runtimeError⟩
          | some v => fetchSuccess clock fs i source t.contacted t.warns v

/-- Whether `fetch_data` succeeds for a source — a function of the
configuration and the per-URL outcomes only. -/
def sourceOk (cfg : Config) (world : String → UrlOutcome) (s : String) :
    Bool :=
  match lookupCfg cfg s with
  | none => false
  | some (SourceConfig.single u) => (world u).isOk
  | some (SourceConfig.multi us) => us.any (fun u => (world u).isOk)

/-- The payload the first successful candidate of a configuration yields. -/
def firstSuccessPayload (c : SourceConfig) (world : String → UrlOutcome) :
    Option JsonVal :=
  match c with
  | SourceConfig.single u => (world u).payload
  | SourceConfig.multi us => (tryUrls world us).res

/-- `logger.error` at line 111. -/
def collectErrMsg (s : String) : LogMsg :=
  (LogLevel.error, "Failed to collect data from " ++ s)

/-- What the sweep loop (lines 105-111) accumulates. -/
structure LoopOut where
  fs : FileSys
  nextIdx : Nat
  log : List LogMsg
  records : List AcquisitionRecord

/-- The sweep loop of `collect_all_sources` (lines 105-111): call
`fetch_data` for each configured source name in order; append the record
on success; log an error and continue on any exception. -/
def collectLoop (cfg : Config) (world : String → UrlOutcome)
    (clock : Nat → DateTime) : List String → FileSys → Nat → LoopOut
  | [], fs, i => ⟨fs, i, [], []⟩
  | s :: rest, fs, i =>
      let fr := fetch_data cfg world clock fs i s
      let tail := collectLoop cfg world clock rest fr.fs fr.nextIdx
      match fr.outcome with
      | Except.ok rec =>
          ⟨tail.fs, tail.nextIdx, fr.log ++ tail.log, rec :: tail.records⟩
      | Except.error _ =>
          ⟨tail.fs, tail.nextIdx, fr.log ++ collectErrMsg s :: tail.log,
            tail.records⟩

/-- The aggregate dictionary of lines 113-114. -/
structure CollectionSummary where
  status : String
  timestamp : String
  results : List AcquisitionRecord

/-- Everything one `collect_all_sources` call produces. -/
structure CollectResult where
  fs : FileSys
  nextIdx : Nat
  log : List LogMsg
  summary : CollectionSummary

/-- `DataCollector.collect_all_sources` (lines 98-114): sweep every
configured source, then return `{'status': 'completed', 'timestamp':
datetime.now().isoformat(), 'results': results}`. -/
def collect_all_sources (cfg : Config) (world : String → UrlOutcome)
    (clock : Nat → DateTime) (fs : FileSys) (i : Nat) : CollectResult :=
  let lp := collectLoop cfg world clock (cfg.map Prod.fst) fs i
  ⟨lp.fs, lp.nextIdx + 1, lp.log,
    ⟨"completed", (clock lp.nextIdx).isoformat, lp.records⟩⟩

/-! ## Processor (`src/data_processor.py`) -/

/-- Lookup of a key in a JSON object's fields (Python dict access). -/
def lookupField : List (String × JsonVal) → String → Option JsonVal
  | [], _ => none
  | (k, v) :: rest, n => if k = n then some v else lookupField rest n

/-- `item.get('revenue', 0)` (line 55): dictionary lookup with default
`0`; on a non-dict, `.get` does not exist and `AttributeError` is
raised (not caught by the `except json.JSONDecodeError` handler). -/
def jsonGet (item : JsonVal) (key : String) (dflt : JsonVal) :
    Except PyError JsonVal :=
  match item with
  | JsonVal.obj fields => Except.ok ((lookupField fields key).getD dflt)
  | _ => Except.error PyError.attributeError

/-- Python `x > 0` on a JSON value: defined for numbers and booleans
(`bool` is an `int` subclass, `True` counts as 1), a `TypeError`
otherwise. -/
def pyGtZero : JsonVal → Except PyError Bool
  | JsonVal.num n => Except.ok (decide (0 < n))
  | JsonVal.bool b => Except.ok b
  | _ => Except.error PyError.typeError

/-- Python `x <= 0` on a JSON value, same conventions as `pyGtZero`. -/
def pyLeZero : JsonVal → Except PyError Bool
  | JsonVal.num n => Except.ok (decide (n ≤ 0))
  | JsonVal.bool b => Except.ok (!b)
  | _ => Except.error PyError.typeError

/-- The list comprehension of line 55:
`[item for item in data if item.get('revenue', 0) > 0]`,
evaluated left to right, propagating the first raised error. -/
def filterList : List JsonVal → Except PyError (List JsonVal)
  | [] => Except.ok []
  | item :: rest => do
      let v ← jsonGet item "revenue" (JsonVal.num 0)
      let keep ← pyGtZero v
      let tail ← filterList rest
      Except.ok (if keep then item :: tail else tail)

/-- The shape-dependent filter of lines 54-59 applied to one parsed
payload: `some x` means `x` is appended to `processed_data`, `none`
means the `continue` at line 59 skipped this artifact. -/
def filterArtifact (data : JsonVal) : Except PyError (Option JsonVal) :=
  match data with
  | JsonVal.arr xs => (filterList xs).map (fun ys => some (JsonVal.arr ys))
  | JsonVal.obj fields =>
      -- `filtered = data.copy()` is a shallow dict copy, the identity in
      -- this pure model; then
      -- `if 'revenue' in filtered and filtered['revenue'] <= 0: continue`.
      match lookupField fields "revenue" with
      | none => Except.ok (some (JsonVal.obj fields))
      | some v => do
          let le ← pyLeZero v
          Except.ok (if le then none else some (JsonVal.obj fields))
  | _ =>
      -- a non-dict, non-list payload has no `.copy()`: `AttributeError`.
      Except.error PyError.attributeError

/-- `logger.warning` at line 64 (the exception text is abstracted away). -/
def parseWarnMsg (fname : String) : LogMsg :=
  (LogLevel.warning, "Failed to parse JSON file " ++ fname)

/-- The per-file loop of lines 48-64: parse each file; a
`json.JSONDecodeError` logs a warning and skips just that file; any
other error propagates; surviving filter outputs accumulate in order. -/
def processFiles : DirEntries → List LogMsg × Except PyError (List JsonVal)
  | [] => ([], Except.ok [])
  | (fname, FileContent.malformed) :: rest =>
      let (l, r) := processFiles rest
      (parseWarnMsg fname :: l, r)
  | (_, FileContent.json v) :: rest =>
      match filterArtifact v with
      | Except.error e => ([], Except.error e)
      | Except.ok none => processFiles rest
      | Except.ok (some x) =>
          let (l, r) := processFiles rest
          (l, r.map (fun tail => x :: tail))

/-- Modelled from the spec: the tail of `process_source` after line 66
(`# Store processed data`) is missing from the source file, which ends
mid-function. Spec §4.2 gives the contract
`processSource(sourceName) -> list of FilteredRecord` (its further
metadata is "partially specified upstream"), so the modelled return
carries exactly the accumulated filtered records. -/
structure ProcResult where
  records : List JsonVal

/-- `logger.info` at line 40. -/
def procStartMsg (s : String) : LogMsg :=
  (LogLevel.info, "Starting data processing from " ++ s ++ ".")

/-- The body of `DataProcessor.process_source` from line 40 on, as it
executes when the name `datetime` is resolvable (the slip at line 39
aside): existence check on the source directory (line 44), glob of
`*.json` files (line 48), per-file parse/filter loop, and the
spec-modelled return of the accumulated records. -/
def process_source_checked (fs : FileSys) (src : String) :
    List LogMsg × Except PyError ProcResult :=
  match lookupDir fs src with
  | none => ([procStartMsg src], Except.error PyError.fileNotFoundError)
  | some dir =>
      let globbed := dir.filter (fun p => ".json".data.isSuffixOf p.1.data)
      let (l, r) := processFiles globbed
      (procStartMsg src :: l, r.map (fun recs => ⟨recs⟩))

/-- The names bound at module level of `data_processor.py` (lines 1-11):
its imports bind `logging`, `Dict`, `Any`, `Optional`, `json` and
`Path`, and the module body binds `logger`. `datetime` is absent. -/
def processorModuleNames : List String :=
  ["logging", "Dict", "Any", "Optional", "json", "Path", "logger"]

/-- `DataProcessor.process_source` (lines 26-66) as it actually executes:
its first statement, `start_time = datetime.now()` (line 39), resolves
the name `datetime`, which the module never imports, so every call
raises `NameError` before the directory check, the glob, any parse and
any filtering — and before the `logger.info` of line 40. -/
def process_source (fs : FileSys) (src : String) :
    List LogMsg × Except PyError ProcResult :=
  if processorModuleNames.contains "datetime" then
    process_source_checked fs src
  else ([], Except.error PyError.nameError)

/-! ## Supporting lemmas -/

theorem tryUrls_first_success (world : String → UrlOutcome)
    (pre : List String) (u : String) (post : List String) (v : JsonVal)
    (hpre : ∀ w ∈ pre, (world w).isOk = false) (hu : world u = UrlOutcome.ok v) :
    tryUrls world (pre ++ u :: post) = ⟨pre ++ [u], pre.map warnMsg, some v⟩ := by
  induction pre with
  | nil => simp [tryUrls, hu]
  | cons w ws ih =>
      have hw : (world w).isOk = false := hpre w (by simp)
      have hws : ∀ x ∈ ws, (world x).isOk = false :=
        fun x hx => hpre x (by simp [hx])
      cases hcw : world w with
      | ok val => rw [hcw] at hw; simp [UrlOutcome.isOk] at hw
      | transportError =>
          simp only [List.cons_append, tryUrls, hcw, List.append_eq,
            ih hws, List.map_cons]
      | decodeError =>
          simp only [List.cons_append, tryUrls, hcw, List.append_eq,
            ih hws, List.map_cons]

theorem tryUrls_all_fail (world : String → UrlOutcome) (urls : List String)
    (hfail : ∀ w ∈ urls, (world w).isOk = false) :
    tryUrls world urls = ⟨urls, urls.map warnMsg, none⟩ := by
  induction urls with
  | nil => rfl
  | cons w ws ih =>
      have hw : (world w).isOk = false := hfail w (by simp)
      have hws : ∀ x ∈ ws, (world x).isOk = false :=
        fun x hx => hfail x (by simp [hx])
      cases hcw : world w with
      | ok val => rw [hcw] at hw; simp [UrlOutcome.isOk] at hw
      | transportError => simp only [tryUrls, hcw, ih hws, List.map_cons]
      | decodeError => simp only [tryUrls, hcw, ih hws, List.map_cons]

theorem tryUrls_res_isSome (world : String → UrlOutcome) (urls : List String) :
    (tryUrls world urls).res.isSome = urls.any (fun u => (world u).isOk) := by
  induction urls with
  | nil => rfl
  | cons w ws ih =>
      cases hcw : world w with
      | ok val => simp [tryUrls, hcw, UrlOutcome.isOk]
      | transportError => simp [tryUrls, hcw, UrlOutcome.isOk, ih]
      | decodeError => simp [tryUrls, hcw, UrlOutcome.isOk, ih]

theorem lookupFile_upsert (d : DirEntries) (n : String) (c : FileContent) :
    lookupFile (upsertFile d n c) n = some c := by
  induction d with
  | nil => simp [upsertFile, lookupFile]
  | cons e rest ih =>
      obtain ⟨g, x⟩ := e
      by_cases hg : g = n
      · simp [upsertFile, hg, lookupFile]
      · simp [upsertFile, hg, lookupFile, ih]

theorem length_upsert (d : DirEntries) (n : String) (c : FileContent)
    (hfresh : n ∉ d.map Prod.fst) :
    (upsertFile d n c).length = d.length + 1 := by
  induction d with
  | nil => rfl
  | cons e rest ih =>
      obtain ⟨g, x⟩ := e
      simp only [List.map_cons, List.mem_cons] at hfresh
      push_neg at hfresh
      have hg : g ≠ n := fun h => hfresh.1 h.symm
      simp [upsertFile, hg, ih hfresh.2]

theorem lookupDir_write (fs : FileSys) (s n : String) (c : FileContent)
    (d : DirEntries) (h : lookupDir fs s = some d) :
    lookupDir (writeFile fs s n c) s = some (upsertFile d n c) := by
  induction fs with
  | nil => simp [lookupDir] at h
  | cons e rest ih =>
      obtain ⟨t, dir⟩ := e
      by_cases ht : t = s
      · simp only [lookupDir, ht, if_pos rfl] at h
        cases h
        simp [writeFile, ht, lookupDir]
      · simp only [lookupDir, ht, if_neg ht] at h
        simp [writeFile, ht, lookupDir, ih h]

theorem lookupDir_mkdir (fs : FileSys) (s : String) :
    lookupDir (mkdirIfAbsent fs s) s = some (dirFiles fs s) := by
  unfold mkdirIfAbsent dirFiles
  cases h : lookupDir fs s with
  | none => simp [lookupDir, h]
  | some d => simp [h]

theorem readFile_store (fs : FileSys) (s n : String) (c : FileContent) :
    readFile (writeFile (mkdirIfAbsent fs s) s n c) s n = some c := by
  have h2 := lookupDir_write (mkdirIfAbsent fs s) s n c _ (lookupDir_mkdir fs s)
  simp [readFile, h2, lookupFile_upsert]

theorem countAllFiles_write (fs : FileSys) (s n : String) (c : FileContent)
    (d : DirEntries) (h : lookupDir fs s = some d)
    (hfresh : n ∉ d.map Prod.fst) :
    countAllFiles (writeFile fs s n c) = countAllFiles fs + 1 := by
  induction fs with
  | nil => simp [lookupDir] at h
  | cons e rest ih =>
      obtain ⟨t, dir⟩ := e
      by_cases ht : t = s
      · simp only [lookupDir, ht, if_pos rfl] at h
        cases h
        simp only [writeFile, ht, if_pos rfl]
        simp [countAllFiles, length_upsert _ _ _ hfresh]
        omega
      · simp only [lookupDir, ht, if_neg ht] at h
        simp only [writeFile, ht, if_neg ht]
        simp [countAllFiles] at ih ⊢
        have := ih h
        omega

theorem countAllFiles_mkdir (fs : FileSys) (s : String) :
    countAllFiles (mkdirIfAbsent fs s) = countAllFiles fs := by
  unfold mkdirIfAbsent
  cases h : lookupDir fs s with
  | none => simp [countAllFiles]
  | some d => rfl

theorem countAllFiles_store (fs : FileSys) (s n : String) (c : FileContent)
    (hfresh : n ∉ (dirFiles fs s).map Prod.fst) :
    countAllFiles (writeFile (mkdirIfAbsent fs s) s n c) =
      countAllFiles fs + 1 := by
  rw [countAllFiles_write (mkdirIfAbsent fs s) s n c _ (lookupDir_mkdir fs s)
    hfresh, countAllFiles_mkdir]

/-- Whether an `Except` value is a success. -/
def exceptIsOk : Except PyError AcquisitionRecord → Bool
  | Except.ok _ => true
  | Except.error _ => false

theorem fetch_data_isOk (cfg : Config) (world : String → UrlOutcome)
    (clock : Nat → DateTime) (fs : FileSys) (i : Nat) (s : String) :
    exceptIsOk (fetch_data cfg world clock fs i s).outcome =
      sourceOk cfg world s := by
  unfold fetch_data sourceOk
  cases hc : lookupCfg cfg s with
  | none => rfl
  | some c =>
      cases c with
      | single u =>
          cases hw : world u <;>
            simp [exceptIsOk, fetchSuccess, UrlOutcome.isOk, hw]
      | multi us =>
          have hsome := tryUrls_res_isSome world us
          cases hr : (tryUrls world us).res with
          | none =>
              rw [hr] at hsome
              simp only [Option.isSome_none] at hsome
              simp [exceptIsOk, hr, ← hsome]
          | some v =>
              rw [hr] at hsome
              simp only [Option.isSome_some] at hsome
              simp [exceptIsOk, hr, fetchSuccess, ← hsome]

theorem fetch_data_ok_fields (cfg : Config) (world : String → UrlOutcome)
    (clock : Nat → DateTime) (fs : FileSys) (i : Nat) (s : String)
    (rec : AcquisitionRecord)
    (h : (fetch_data cfg world clock fs i s).outcome = Except.ok rec) :
    rec.source = s ∧ rec.status = "success" := by
  unfold fetch_data at h
  cases hc : lookupCfg cfg s <;> simp only [hc] at h
  case none => cases h
  case some c =>
    cases c with
    | single u =>
        cases hw : world u <;>
          simp only [hw, fetchSuccess, Except.ok.injEq] at h
        case transportError => cases h
        case decodeError => cases h
        case ok v =>
            cases h
            exact ⟨rfl, rfl⟩
    | multi us =>
        cases hr : (tryUrls world us).res <;>
          simp only [hr, fetchSuccess, Except.ok.injEq] at h
        case none => cases h
        case some v =>
            cases h
            exact ⟨rfl, rfl⟩

theorem collectLoop_records_length (cfg : Config)
    (world : String → UrlOutcome) (clock : Nat → DateTime)
    (names : List String) :
    ∀ (fs : FileSys) (i : Nat),
      (collectLoop cfg world clock names fs i).records.length =
        names.countP (fun s => sourceOk cfg world s) := by
  induction names with
  | nil => intro fs i; rfl
  | cons s rest ih =>
      intro fs i
      have hb := fetch_data_isOk cfg world clock fs i s
      cases ho : (fetch_data cfg world clock fs i s).outcome with
      | ok rec =>
          rw [ho] at hb
          simp only [exceptIsOk] at hb
          simp [collectLoop, ho, List.countP_cons, ih, ← hb]
      | error e =>
          rw [ho] at hb
          simp only [exceptIsOk] at hb
          simp [collectLoop, ho, List.countP_cons, ih, ← hb]

theorem collectLoop_records_ok (cfg : Config)
    (world : String → UrlOutcome) (clock : Nat → DateTime)
    (names : List String) :
    ∀ (fs : FileSys) (i : Nat) (r : AcquisitionRecord),
      r ∈ (collectLoop cfg world clock names fs i).records →
        sourceOk cfg world r.source = true := by
  induction names with
  | nil => intro fs i r hr; simp [collectLoop] at hr
  | cons s rest ih =>
      intro fs i r hr
      have hb := fetch_data_isOk cfg world clock fs i s
      cases ho : (fetch_data cfg world clock fs i s).outcome with
      | ok rec =>
          rw [ho] at hb
          simp only [exceptIsOk] at hb
          simp only [collectLoop, ho, List.mem_cons] at hr
          rcases hr with rfl | hr
          · have hsrc := (fetch_data_ok_fields cfg world clock fs i s r ho).1
            rw [hsrc, ← hb]
          · exact ih _ _ r hr
      | error e =>
          simp only [collectLoop, ho] at hr
          exact ih _ _ r hr

/-! ## Claims -/

/-- C2: for every multi-endpoint source, `fetch_data` tries the candidate
endpoints in configured order; a transport or JSON-decode failure for a
candidate logs one warning and advances to the next candidate; the first
candidate that succeeds determines the stored payload of the returned
record, and no later candidate is contacted or merged in (the contacted
list stops at the first success, the stored artifact holds exactly its
payload). -/
theorem fetch_data_multi_first_success
    (cfg : Config) (world : String → UrlOutcome) (clock : Nat → DateTime)
    (fs : FileSys) (i : Nat) (s : String)
    (pre : List String) (u : String) (post : List String) (v : JsonVal)
    (hcfg : lookupCfg cfg s = some (SourceConfig.multi (pre ++ u :: post)))
    (hpre : ∀ w ∈ pre, (world w).isOk = false)
    (hu : world u = UrlOutcome.ok v) :
    (fetch_data cfg world clock fs i s).contacted = pre ++ [u] ∧
    (fetch_data cfg world clock fs i s).log =
      startMsg s :: (pre.map warnMsg ++
        [storedMsg s (artifactName s (clock (i + 2)).isoformat)]) ∧
    (fetch_data cfg world clock fs i s).outcome =
      Except.ok ⟨"success", s, (clock (i + 2)).isoformat,
        ((clock (i + 1)).ord : Int) - ((clock i).ord : Int)⟩ ∧
    readFile (fetch_data cfg world clock fs i s).fs s
      (artifactName s (clock (i + 2)).isoformat) =
      some (FileContent.json v) := by
  have ht := tryUrls_first_success world pre u post v hpre hu
  unfold fetch_data
  simp only [hcfg, ht, fetchSuccess]
  refine ⟨?_, ?_, ?_, ?_⟩ <;>
    first
      | exact True.intro
      | rfl
      | exact readFile_store fs s _ _

/-- A deterministic world for the witnesses: the first market endpoint
fails at transport level, every other URL answers with a small object. -/
def worldFirstDown : String → UrlOutcome := fun u =>
  if u = "https://api.market1.example.com" then UrlOutcome.transportError
  else UrlOutcome.ok (JsonVal.obj [("revenue", JsonVal.num 42)])

/-- A world in which every URL fails at transport level. -/
def worldAllDown : String → UrlOutcome := fun _ => UrlOutcome.transportError

/-- A deterministic clock for the witnesses. -/
def clockW : Nat → DateTime := fun j => ⟨2024, 5, 6, 7, 8, 9, j + 1⟩

theorem fetch_data_multi_first_success_witness :
    (fetch_data defaultDataSources worldFirstDown clockW [] 0
        "market").contacted =
      ["https://api.market1.example.com", "https://api.market2.example.com"] ∧
    (fetch_data defaultDataSources worldFirstDown clockW [] 0 "market").log =
      startMsg "market" :: ([warnMsg "https://api.market1.example.com"] ++
        [storedMsg "market" (artifactName "market" (clockW 2).isoformat)]) ∧
    (fetch_data defaultDataSources worldFirstDown clockW [] 0
        "market").outcome =
      Except.ok ⟨"success", "market", (clockW 2).isoformat,
        ((clockW 1).ord : Int) - ((clockW 0).ord : Int)⟩ ∧
    readFile (fetch_data defaultDataSources worldFirstDown clockW [] 0
        "market").fs "market"
      (artifactName "market" (clockW 2).isoformat) =
      some (FileContent.json (JsonVal.obj [("revenue", JsonVal.num 42)])) :=
  fetch_data_multi_first_success defaultDataSources worldFirstDown clockW
    [] 0 "market" ["https://api.market1.example.com"]
    "https://api.market2.example.com" [] (JsonVal.obj [("revenue", JsonVal.num 42)])
    rfl (by decide) rfl

/-- C3: for every multi-endpoint source whose candidates all fail,
`fetch_data` raises the exhausted-fallback error (`RuntimeError`
"Could not fetch data from any URL in the list.", the spec's
`FetchError` "no reachable endpoint") and the raw storage area is
returned unchanged — no artifact file is written. -/
theorem fetch_data_multi_all_fail
    (cfg : Config) (world : String → UrlOutcome) (clock : Nat → DateTime)
    (fs : FileSys) (i : Nat) (s : String) (urls : List String)
    (hcfg : lookupCfg cfg s = some (SourceConfig.multi urls))
    (hfail : ∀ w ∈ urls, (world w).isOk = false) :
    (fetch_data cfg world clock fs i s).outcome =
      Except.error PyError.runtimeError ∧
    (fetch_data cfg world clock fs i s).fs = fs := by
  have ht := tryUrls_all_fail world urls hfail
  unfold fetch_data
  simp only [hcfg, ht]
  exact ⟨True.intro, True.intro⟩

theorem fetch_data_multi_all_fail_witness :
    (fetch_data defaultDataSources worldAllDown clockW
        [("crm", [("old.json", FileContent.malformed)])] 0 "market").outcome =
      Except.error PyError.runtimeError ∧
    (fetch_data defaultDataSources worldAllDown clockW
        [("crm", [("old.json", FileContent.malformed)])] 0 "market").fs =
      [("crm", [("old.json", FileContent.malformed)])] :=
  fetch_data_multi_all_fail defaultDataSources worldAllDown clockW
    [("crm", [("old.json", FileContent.malformed)])] 0 "market"
    ["https://api.market1.example.com", "https://api.market2.example.com"]
    rfl (by decide)

/-- C4: `collect_all_sources` never propagates a single source's failure:
for every configuration and every pattern of per-source outcomes the
sweep runs to completion (it is a total function into a summary), the
record list counts exactly the successful sources — every record in it
belongs to a source whose fetch succeeds, so each failed source is
excluded — and when exactly one source fails the record list has length
N−1 for N configured sources. -/
theorem collect_all_sources_partial_failure
    (cfg : Config) (world : String → UrlOutcome) (clock : Nat → DateTime)
    (fs : FileSys) (i : Nat) :
    (collect_all_sources cfg world clock fs i).summary.results.length =
      (cfg.map Prod.fst).countP (fun s => sourceOk cfg world s) ∧
    (∀ r ∈ (collect_all_sources cfg world clock fs i).summary.results,
      sourceOk cfg world r.source = true) ∧
    ((cfg.map Prod.fst).countP (fun s => !sourceOk cfg world s) = 1 →
      (collect_all_sources cfg world clock fs i).summary.results.length =
        cfg.length - 1) := by
  have hrecs : (collect_all_sources cfg world clock fs i).summary.results =
      (collectLoop cfg world clock (cfg.map Prod.fst) fs i).records := rfl
  refine ⟨?_, ?_, ?_⟩
  · rw [hrecs, collectLoop_records_length]
  · intro r hr
    rw [hrecs] at hr
    exact collectLoop_records_ok cfg world clock (cfg.map Prod.fst) fs i r hr
  · intro hone
    rw [hrecs, collectLoop_records_length]
    have htot : (cfg.map Prod.fst).countP (fun s => sourceOk cfg world s) +
        (cfg.map Prod.fst).countP (fun s => !sourceOk cfg world s) =
        (cfg.map Prod.fst).length := by
      induction (cfg.map Prod.fst) with
      | nil => rfl
      | cons a t ih =>
          cases h : sourceOk cfg world a <;>
            simp [List.countP_cons, h] <;> omega
    rw [List.length_map] at htot
    omega

/-- A world in which only the CRM endpoint answers. -/
def worldOnlyCrm : String → UrlOutcome := fun u =>
  if u = "https://api.crm.example.com/revenue"
  then UrlOutcome.ok (JsonVal.obj [("revenue", JsonVal.num 42)])
  else UrlOutcome.transportError

/-- A two-source configuration for the C4 witness: `crm` succeeds,
`market` has both candidates down, so exactly one source fails. -/
def cfgTwoW : Config :=
  [("crm", SourceConfig.single "https://api.crm.example.com/revenue"),
   ("market", SourceConfig.multi
      ["https://api.market1.example.com", "https://api.market2.example.com"])]

theorem collect_all_sources_partial_failure_witness :
    (collect_all_sources cfgTwoW worldOnlyCrm clockW [] 0).summary.results.length =
      (cfgTwoW.map Prod.fst).countP (fun s => sourceOk cfgTwoW worldOnlyCrm s) ∧
    (∀ r ∈ (collect_all_sources cfgTwoW worldOnlyCrm clockW [] 0).summary.results,
      sourceOk cfgTwoW worldOnlyCrm r.source = true) ∧
    (collect_all_sources cfgTwoW worldOnlyCrm clockW [] 0).summary.results.length =
      cfgTwoW.length - 1 :=
  have h := collect_all_sources_partial_failure cfgTwoW worldOnlyCrm clockW [] 0
  ⟨h.1, h.2.1, h.2.2 (by decide)⟩

/-- C5: for every pattern of per-source outcomes — including every source
failing — the summary `collect_all_sources` returns carries the fixed
status value "completed" and a completion timestamp read from the clock,
and its record list length is between 0 and the number of configured
sources. -/
theorem collect_all_sources_summary_shape
    (cfg : Config) (world : String → UrlOutcome) (clock : Nat → DateTime)
    (fs : FileSys) (i : Nat) :
    (collect_all_sources cfg world clock fs i).summary.status = "completed" ∧
    (∃ j, (collect_all_sources cfg world clock fs i).summary.timestamp =
      (clock j).isoformat) ∧
    (collect_all_sources cfg world clock fs i).summary.results.length ≤
      cfg.length := by
  refine ⟨rfl, ⟨(collectLoop cfg world clock (cfg.map Prod.fst) fs i).nextIdx,
    rfl⟩, ?_⟩
  have hrecs : (collect_all_sources cfg world clock fs i).summary.results =
      (collectLoop cfg world clock (cfg.map Prod.fst) fs i).records := rfl
  rw [hrecs, collectLoop_records_length]
  have hle := (cfg.map Prod.fst).countP_le_length
    (fun s => sourceOk cfg world s)
  rwa [List.length_map] at hle

/-- C9: for every configured source, a successful `fetch_data` call
writes exactly one new raw artifact file — named
`{source}_{ISO-8601 timestamp}.json` under the per-source subdirectory
of the raw storage root, holding the fetched JSON payload unmodified —
and returns a record whose duration is ≥ 0 (for a monotone clock) and
whose timestamp parses as ISO-8601. -/
theorem fetch_data_success_artifact
    (cfg : Config) (world : String → UrlOutcome) (clock : Nat → DateTime)
    (fs : FileSys) (i : Nat) (s : String) (c : SourceConfig)
    (rec : AcquisitionRecord)
    (hcfg : lookupCfg cfg s = some c)
    (hok : (fetch_data cfg world clock fs i s).outcome = Except.ok rec)
    (hmono : (clock i).ord ≤ (clock (i + 1)).ord)
    (hvalid : (clock (i + 2)).valid)
    (hfresh : artifactName s (clock (i + 2)).isoformat ∉
      (dirFiles fs s).map Prod.fst) :
    0 ≤ rec.duration ∧
    rec.timestamp = (clock (i + 2)).isoformat ∧
    isISO8601 rec.timestamp = true ∧
    countAllFiles (fetch_data cfg world clock fs i s).fs =
      countAllFiles fs + 1 ∧
    (∃ v, firstSuccessPayload c world = some v ∧
      readFile (fetch_data cfg world clock fs i s).fs s
        (artifactName s (clock (i + 2)).isoformat) =
        some (FileContent.json v)) := by
  unfold fetch_data at hok ⊢
  rw [hcfg] at hok ⊢
  cases c with
  | single u =>
      cases hw : world u <;>
        simp only [hw, fetchSuccess, Except.ok.injEq] at hok
      case transportError => cases hok
      case decodeError => cases hok
      case ok v =>
          cases hok
          simp only [hw, fetchSuccess]
          refine ⟨?_, ?_, ?_, ?_, ?_⟩ <;>
            first
              | omega
              | exact True.intro
              | rfl
              | exact isoformat_isISO8601 _ hvalid
              | exact countAllFiles_store fs s _ _ hfresh
              | exact ⟨v, by simp [firstSuccessPayload, hw, UrlOutcome.payload],
                  readFile_store fs s _ _⟩
  | multi us =>
      cases hr : (tryUrls world us).res <;>
        simp only [hr, fetchSuccess, Except.ok.injEq] at hok
      case none => cases hok
      case some v =>
          cases hok
          simp only [hr, fetchSuccess]
          refine ⟨?_, ?_, ?_, ?_, ?_⟩ <;>
            first
              | omega
              | exact True.intro
              | rfl
              | exact isoformat_isISO8601 _ hvalid
              | exact countAllFiles_store fs s _ _ hfresh
              | exact ⟨v, by simp [firstSuccessPayload, hr],
                  readFile_store fs s _ _⟩

theorem fetch_data_success_artifact_witness :
    0 ≤ (⟨"success", "crm", (clockW 2).isoformat,
      ((clockW 1).ord : Int) - ((clockW 0).ord : Int)⟩ :
        AcquisitionRecord).duration ∧
    (⟨"success", "crm", (clockW 2).isoformat,
      ((clockW 1).ord : Int) - ((clockW 0).ord : Int)⟩ :
        AcquisitionRecord).timestamp = (clockW 2).isoformat ∧
    isISO8601 (⟨"success", "crm", (clockW 2).isoformat,
      ((clockW 1).ord : Int) - ((clockW 0).ord : Int)⟩ :
        AcquisitionRecord).timestamp = true ∧
    countAllFiles (fetch_data defaultDataSources worldFirstDown clockW
      [] 0 "crm").fs = countAllFiles [] + 1 ∧
    (∃ v, firstSuccessPayload
        (SourceConfig.single "https://api.crm.example.com/revenue")
        worldFirstDown = some v ∧
      readFile (fetch_data defaultDataSources worldFirstDown clockW
          [] 0 "crm").fs "crm"
        (artifactName "crm" (clockW 2).isoformat) =
        some (FileContent.json v)) :=
  fetch_data_success_artifact defaultDataSources worldFirstDown clockW
    [] 0 "crm" (SourceConfig.single "https://api.crm.example.com/revenue")
    ⟨"success", "crm", (clockW 2).isoformat,
      ((clockW 1).ord : Int) - ((clockW 0).ord : Int)⟩
    rfl rfl (by decide) (by decide) (by decide)

/-- C10: `process_source` evaluates `datetime.now()` (line 39) but the
module never imports `datetime` (its module-level names are exactly
`processorModuleNames`), so for every input — any data-lake state and
any source name, with or without a raw directory — the call raises
`NameError` before performing any enumeration, parsing, filtering, or
the not-found check: the result is independent of the file system and
nothing is logged (the `logger.info` of line 40 is never reached). -/
theorem process_source_always_nameError (fs : FileSys) (src : String) :
    process_source fs src = ([], Except.error PyError.nameError) ∧
    processorModuleNames.contains "datetime" = false :=
  ⟨rfl, rfl⟩

/-- C1: the claim describes the shape-dependent filter of lines 54-61,
but `process_source` raises `NameError` at line 39 before any filtering
(first conjunct, at the spec's own list-shaped test vector). The
remaining conjuncts show the claim matches the intent of the body: with
the `datetime` import supplied, the list-shaped artifact
`[{"revenue": 10}, {"revenue": -5}, {"revenue": 0}]` filters to
`[{"revenue": 10}]`, the object `{"revenue": -1}` is excluded entirely,
`{"revenue": 5}` is retained unchanged, and `{}` (no revenue field) is
retained unchanged. -/
theorem process_source_filter_unreachable :
    process_source [("crm", [("crm_a.json", FileContent.json (JsonVal.arr
        [JsonVal.obj [("revenue", JsonVal.num 10)],
         JsonVal.obj [("revenue", JsonVal.num (-5))],
         JsonVal.obj [("revenue", JsonVal.num 0)]]))])] "crm" =
      ([], Except.error PyError.nameError) ∧
    (process_source_checked [("crm", [("crm_a.json", FileContent.json (JsonVal.arr
        [JsonVal.obj [("revenue", JsonVal.num 10)],
         JsonVal.obj [("revenue", JsonVal.num (-5))],
         JsonVal.obj [("revenue", JsonVal.num 0)]]))])] "crm").2 =
      Except.ok ⟨[JsonVal.arr [JsonVal.obj [("revenue", JsonVal.num 10)]]]⟩ ∧
    (process_source_checked [("crm", [("b.json", FileContent.json
        (JsonVal.obj [("revenue", JsonVal.num (-1))]))])] "crm").2 =
      Except.ok ⟨[]⟩ ∧
    (process_source_checked [("crm", [("b.json", FileContent.json
        (JsonVal.obj [("revenue", JsonVal.num 5)]))])] "crm").2 =
      Except.ok ⟨[JsonVal.obj [("revenue", JsonVal.num 5)]]⟩ ∧
    (process_source_checked [("crm", [("b.json", FileContent.json
        (JsonVal.obj []))])] "crm").2 =
      Except.ok ⟨[JsonVal.obj []]⟩ :=
  ⟨rfl, rfl, rfl, rfl, rfl⟩

/-- C6 counterexample: the claim says a raw directory that exists but
holds no artifacts makes `process_source` fail with the not-found error;
on the code it does not — the call raises `NameError` (missing
`datetime` import) at this input, not `FileNotFoundError`. -/
theorem process_source_emptyDir_no_notFound :
    (process_source [("crm", [])] "crm").2 ≠
      Except.error PyError.fileNotFoundError := by
  intro h
  cases (Except.error.inj h :
    PyError.nameError = PyError.fileNotFoundError)

/-- C6 amended: every call to `process_source` raises `NameError` before
any check (the module never imports `datetime`); and even under the
intended import, the body reserves `FileNotFoundError` for a raw
directory that does not exist (line 44), while an existing empty
directory is not an error — it yields an empty record list. -/
theorem process_source_notFound_only_missing_dir :
    (∀ fs src, process_source fs src = ([], Except.error PyError.nameError)) ∧
    (process_source_checked [] "crm").2 =
      Except.error PyError.fileNotFoundError ∧
    (process_source_checked [("crm", [])] "crm").2 = Except.ok ⟨[]⟩ :=
  ⟨fun _ _ => rfl, rfl, rfl⟩

/-- C7: the claim describes the per-file parse tolerance of lines 48-64,
but `process_source` raises `NameError` at line 39 before opening any
file (first conjunct, at a directory holding a malformed file next to a
valid artifact). The second conjunct shows the claim matches the intent
of the body: with the `datetime` import supplied, the malformed file
produces exactly one logged warning and is skipped, and the result is
derived only from the valid artifact. -/
theorem process_source_malformed_unreachable :
    process_source
        [("crm", [("bad.json", FileContent.malformed),
          ("good.json", FileContent.json
            (JsonVal.obj [("revenue", JsonVal.num 7)]))])] "crm" =
      ([], Except.error PyError.nameError) ∧
    process_source_checked
        [("crm", [("bad.json", FileContent.malformed),
          ("good.json", FileContent.json
            (JsonVal.obj [("revenue", JsonVal.num 7)]))])] "crm" =
      ([procStartMsg "crm", parseWarnMsg "bad.json"],
       Except.ok ⟨[JsonVal.obj [("revenue", JsonVal.num 7)]]⟩) :=
  ⟨rfl, rfl⟩

/-- C8: the claim describes the accumulated return of `process_source`,
but the call raises `NameError` at line 39 before accumulating anything
(first conjunct). The second conjunct shows the body's intent on a
four-artifact directory: one entry per artifact that was not wholly
skipped — the positive-revenue object is kept, the zero-revenue object
is skipped, the malformed file is skipped, and the list-shaped artifact
contributes its (possibly empty) filtered list — in enumeration order. -/
theorem process_source_accumulation_unreachable :
    process_source
        [("crm", [("a1.json", FileContent.json
            (JsonVal.obj [("revenue", JsonVal.num 3)])),
          ("a2.json", FileContent.json
            (JsonVal.obj [("revenue", JsonVal.num 0)])),
          ("a3.json", FileContent.malformed),
          ("a4.json", FileContent.json (JsonVal.arr
            [JsonVal.obj [("revenue", JsonVal.num (-2))]]))])] "crm" =
      ([], Except.error PyError.nameError) ∧
    process_source_checked
        [("crm", [("a1.json", FileContent.json
            (JsonVal.obj [("revenue", JsonVal.num 3)])),
          ("a2.json", FileContent.json
            (JsonVal.obj [("revenue", JsonVal.num 0)])),
          ("a3.json", FileContent.malformed),
          ("a4.json", FileContent.json (JsonVal.arr
            [JsonVal.obj [("revenue", JsonVal.num (-2))]]))])] "crm" =
      ([procStartMsg "crm", parseWarnMsg "a3.json"],
       Except.ok ⟨[JsonVal.obj [("revenue", JsonVal.num 3)],
         JsonVal.arr []]⟩) :=
  ⟨rfl, rfl⟩
